import Mathlib

/-!
Verification of the kirana-store back-office (src/main.py) against its
natural-language specification.

Shallow embedding conventions:
* Database rows (`Product`, `Sale`, `Purchase`, `User`) become Lean structures;
  the database is a record of lists of rows, and each FastAPI handler becomes a
  pure function from the database (plus the request data and the wall-clock
  time `now`) to an `Except` value, where `.error n` models
  `raise HTTPException(status_code = n)`.
* SQLAlchemy `Float` money columns are modelled as `ℚ`. Every claim below
  compares a stored value with the very expression the code computes, so the
  comparison is exact regardless of the floating-point representation.
* `Integer` quantity columns and the (integer-valued) `stock` column are
  modelled as `ℤ`.
* Timestamps (`DateTime` columns and parsed `date_from` / `date_to` query
  parameters) are modelled as `ℤ` with the usual order; the endpoints are
  embedded after date-string parsing, taking `Option ℤ` cutoffs.
* `db.query(X).filter(cond).first()` becomes `List.find?`;
  `.all()` plus `sum(r.quantity for r in rows)` becomes filter/map/sum;
  mutating the object returned by `.first()` becomes `mapFirst` (replace the
  first matching row); `db.delete(row)` becomes `List.eraseP` (erase the first
  row with that primary key).
-/

namespace KiranaStore

set_option autoImplicit false

/-- The `products` table row (class `Product` in src/main.py). `stock` and
`initial_stock` are `Float` columns in the schema but every value written to
them by the API is an integer (`ProductCreate.stock : int`, integer sale and
purchase quantities), so they are modelled as `ℤ`. -/
structure Product where
  id : ℤ
  name : String
  purchase_price : ℚ
  selling_price : ℚ
  unit_type : String
  stock : ℤ
  initial_stock : ℤ
  created_at : ℤ
  deriving DecidableEq

/-- The `sales` table row (class `Sale` in src/main.py). -/
structure Sale where
  id : ℤ
  product_id : ℤ
  quantity : ℤ
  total_amount : ℚ
  sale_date : ℤ
  deriving DecidableEq

/-- The `purchases` table row (class `Purchase` in src/main.py). -/
structure Purchase where
  id : ℤ
  product_id : ℤ
  quantity : ℤ
  total_cost : ℚ
  purchase_date : ℤ
  deriving DecidableEq

/-- The relational state the endpoints under study read and write. -/
structure DB where
  products : List Product
  sales : List Sale
  purchases : List Purchase
  deriving DecidableEq

/-- Replace the first element satisfying `hit` by its image under `f`
(the list analogue of mutating the object returned by `.first()`). -/
def mapFirst {α : Type} (hit : α → Bool) (f : α → α) : List α → List α
  | [] => []
  | x :: xs => if hit x then f x :: xs else x :: mapFirst hit f xs

/-- Embeds `sum(p.quantity for p in db.query(Purchase).filter(product_id == pid,
purchase_date <= cutoff).all())` in `get_products_stock_snapshot`. -/
def purchasesUpTo (db : DB) (pid : ℤ) (cutoff : ℤ) : ℤ :=
  ((db.purchases.filter
      (fun p => p.product_id == pid && decide (p.purchase_date ≤ cutoff))).map
    (fun p => p.quantity)).sum

/-- Embeds `sum(s.quantity for s in db.query(Sale).filter(product_id == pid,
sale_date <= cutoff).all())` in `get_products_stock_snapshot`. -/
def salesUpTo (db : DB) (pid : ℤ) (cutoff : ℤ) : ℤ :=
  ((db.sales.filter
      (fun s => s.product_id == pid && decide (s.sale_date ≤ cutoff))).map
    (fun s => s.quantity)).sum

/-- Embeds `sum(p.quantity for p in all_purchases_ever)` — no date filter. -/
def totalPurchasesEver (db : DB) (pid : ℤ) : ℤ :=
  ((db.purchases.filter (fun p => p.product_id == pid)).map
    (fun p => p.quantity)).sum

/-- Embeds `sum(s.quantity for s in all_sales_ever)` — no date filter. -/
def totalSalesEver (db : DB) (pid : ℤ) : ℤ :=
  ((db.sales.filter (fun s => s.product_id == pid)).map
    (fun s => s.quantity)).sum

/-- Response model `ProductStockSnapshot` of src/main.py. -/
structure ProductStockSnapshot where
  product_id : ℤ
  product_name : String
  price : ℚ
  stock : ℤ
  stock_value : ℚ
  unit_type : String
  last_updated : ℤ
  deriving DecidableEq

/-- The per-product body of the loop in `get_products_stock_snapshot`
(src/main.py lines 804-873): `calculated_stock` defaults to the live stock;
with `filter_date_to` it is opening stock plus purchases up to the cutoff
minus sales up to the cutoff, where
`opening_stock = stock + total_sales_ever - total_purchases_ever`;
with only `filter_date_from` it is purchases up to `date_from` minus sales up
to `date_from` (the code adds no opening stock in this branch);
`last_updated` is `datetime.now(IST)` at response time. -/
def snapshotFor (db : DB) (dateFrom dateTo : Option ℤ) (now : ℤ)
    (product : Product) : ProductStockSnapshot :=
  let calculated_stock : ℤ :=
    match dateTo with
    | some cutoff =>
        let total_purchases_up_to_date := purchasesUpTo db product.id cutoff
        let total_sales_up_to_date := salesUpTo db product.id cutoff
        let total_purchases_ever := totalPurchasesEver db product.id
        let total_sales_ever := totalSalesEver db product.id
        let opening_stock := product.stock + total_sales_ever - total_purchases_ever
        opening_stock + total_purchases_up_to_date - total_sales_up_to_date
    | none =>
      match dateFrom with
      | some cutoff => purchasesUpTo db product.id cutoff - salesUpTo db product.id cutoff
      | none => product.stock
  { product_id := product.id
    product_name := product.name
    price := product.purchase_price
    stock := calculated_stock
    stock_value := product.purchase_price * (calculated_stock : ℚ)
    unit_type := product.unit_type
    last_updated := now }

/-- Embeds `if product_id: query = query.filter(Product.id == product_id)` —
note that Python truthiness makes `product_id = 0` behave like no filter. -/
def selectedProducts (db : DB) (pid : Option ℤ) : List Product :=
  match pid with
  | some p => if p == 0 then db.products else db.products.filter (fun x => x.id == p)
  | none => db.products

/-- Endpoint `GET /products/stock-snapshot` (src/main.py lines 736-876), after date
parsing: `dateFrom` / `dateTo` are the parsed `filter_date_from` /
`filter_date_to` and `now` is the wall-clock instant stamped into each
entry's `last_updated`. -/
def get_products_stock_snapshot (db : DB) (dateFrom dateTo : Option ℤ)
    (pid : Option ℤ) (now : ℤ) : List ProductStockSnapshot :=
  (selectedProducts db pid).map (snapshotFor db dateFrom dateTo now)

/-- Response model `OpeningStockResponse` of src/main.py. -/
structure OpeningStockResponse where
  id : ℤ
  name : String
  purchase_price : ℚ
  selling_price : ℚ
  unit_type : String
  initial_stock : ℤ
  stock_value : ℚ
  created_at : ℤ
  deriving DecidableEq

/-- Endpoint `GET /opening-stock-register` (src/main.py lines 666-698): for every
product, `initial_stock = max(0, product.initial_stock)` and
`stock_value = initial_stock * product.purchase_price`. -/
def get_opening_stock_register (db : DB) : List OpeningStockResponse :=
  db.products.map (fun product =>
    let initial_stock : ℤ := max 0 product.initial_stock
    { id := product.id
      name := product.name
      purchase_price := product.purchase_price
      selling_price := product.selling_price
      unit_type := product.unit_type
      initial_stock := initial_stock
      stock_value := (initial_stock : ℚ) * product.purchase_price
      created_at := product.created_at })

/-- Request model `SaleCreate`: `product_id : int`,
`quantity : int = Field(..., gt=0)`. -/
structure SaleCreate where
  product_id : ℤ
  quantity : ℤ

/-- The `gt=0` constraint FastAPI enforces on `SaleCreate.quantity` before the
handler runs (a request failing it is rejected with 422 and never reaches
`record_sale`). -/
def SaleCreate.valid (req : SaleCreate) : Prop := 0 < req.quantity

/-- Request model `PurchaseCreate`: `quantity : int = Field(..., gt=0)`,
`unit_cost : float = Field(..., gt=0)`. -/
structure PurchaseCreate where
  product_id : ℤ
  quantity : ℤ
  unit_cost : ℚ

/-- The `gt=0` constraints on `PurchaseCreate.quantity` and `unit_cost`. -/
def PurchaseCreate.valid (req : PurchaseCreate) : Prop :=
  0 < req.quantity ∧ 0 < req.unit_cost

/-- Endpoint `POST /sales/` handler `record_sale` (src/main.py lines 950-973):
404 if the product is missing, 400 if `product.stock < sale.quantity`,
otherwise insert a `Sale` row with
`total_amount = product.selling_price * sale.quantity` and
`sale_date = datetime.now(IST)`, decrement the product's stock by the
quantity and commit. `now` is the wall-clock time and `newId` the primary key
the database assigns to the new row. -/
def record_sale (db : DB) (req : SaleCreate) (now newId : ℤ) :
    Except ℕ (DB × Sale) :=
  match db.products.find? (fun p => p.id == req.product_id) with
  | none => .error 404
  | some product =>
    if product.stock < req.quantity then .error 400
    else
      let selling_price := product.selling_price
      let total_amount := selling_price * (req.quantity : ℚ)
      let db_sale : Sale :=
        { id := newId
          product_id := req.product_id
          quantity := req.quantity
          total_amount := total_amount
          sale_date := now }
      .ok
        ({ db with
            products := mapFirst (fun p => p.id == req.product_id)
              (fun p => { p with stock := p.stock - req.quantity }) db.products
            sales := db.sales ++ [db_sale] },
          db_sale)

/-- Endpoint `POST /purchases/` handler `record_purchase` (src/main.py lines 976-994):
404 if the product is missing, otherwise insert a `Purchase` row with
`total_cost = purchase.unit_cost * purchase.quantity`, increment the
product's stock by the quantity and commit. -/
def record_purchase (db : DB) (req : PurchaseCreate) (now newId : ℤ) :
    Except ℕ (DB × Purchase) :=
  match db.products.find? (fun p => p.id == req.product_id) with
  | none => .error 404
  | some _ =>
    let total_cost := req.unit_cost * (req.quantity : ℚ)
    let db_purchase : Purchase :=
      { id := newId
        product_id := req.product_id
        quantity := req.quantity
        total_cost := total_cost
        purchase_date := now }
    .ok
      ({ db with
          products := mapFirst (fun p => p.id == req.product_id)
            (fun p => { p with stock := p.stock + req.quantity }) db.products
          purchases := db.purchases ++ [db_purchase] },
        db_purchase)

/-- Endpoint `DELETE /sales/\x7bsale_id\x7d` handler `delete_sale` (src/main.py lines
998-1029): find the sale, find its product, restore
`product.stock += sale.quantity`, delete the sale row and commit. The
handler's `except Exception` clause also catches the `HTTPException(404)`s it
raises itself and rewraps them, so a missing sale or product surfaces as
HTTP 500, and no state change is committed (`db.rollback()`). -/
def delete_sale (db : DB) (sale_id : ℤ) : Except ℕ DB :=
  match db.sales.find? (fun s => s.id == sale_id) with
  | none => .error 500
  | some db_sale =>
    match db.products.find? (fun p => p.id == db_sale.product_id) with
    | none => .error 500
    | some _ =>
      .ok
        { db with
            products := mapFirst (fun p => p.id == db_sale.product_id)
              (fun p => { p with stock := p.stock + db_sale.quantity }) db.products
            sales := db.sales.eraseP (fun s => s.id == sale_id) }

/-- Endpoint `DELETE /purchases/\x7bpurchase_id\x7d` handler `delete_purchase` (src/main.py
lines 1031-1072): find the purchase (404), find its product (404), reject
with 400 if `product.stock < purchase.quantity`, otherwise decrement the
stock by the quantity, delete the purchase row and commit. Unlike
`delete_sale`, this handler re-raises `HTTPException` unchanged, so the
404/400 codes survive. -/
def delete_purchase (db : DB) (purchase_id : ℤ) : Except ℕ DB :=
  match db.purchases.find? (fun p => p.id == purchase_id) with
  | none => .error 404
  | some db_purchase =>
    match db.products.find? (fun p => p.id == db_purchase.product_id) with
    | none => .error 404
    | some product =>
      if product.stock < db_purchase.quantity then .error 400
      else
        .ok
          { db with
              products := mapFirst (fun p => p.id == db_purchase.product_id)
                (fun p => { p with stock := p.stock - db_purchase.quantity }) db.products
              purchases := db.purchases.eraseP (fun p => p.id == purchase_id) }

/-- Request model `ProductUpdate`: every field optional, and — unlike
`ProductCreate.stock`, which has `ge=0` — `stock : Optional[int]` carries no
lower-bound constraint. -/
structure ProductUpdate where
  name : Option String
  purchase_price : Option ℚ
  selling_price : Option ℚ
  unit_type : Option String
  stock : Option ℤ

/-- Embeds `for key, value in product_data.dict(exclude_unset=True).items():
setattr(db_product, key, value)` — each field supplied in the request
overwrites the stored one. -/
def applyProductUpdate (u : ProductUpdate) (p : Product) : Product :=
  { p with
      name := u.name.getD p.name
      purchase_price := u.purchase_price.getD p.purchase_price
      selling_price := u.selling_price.getD p.selling_price
      unit_type := u.unit_type.getD p.unit_type
      stock := u.stock.getD p.stock }

/-- Endpoint `PUT /products/\x7bproduct_id\x7d` handler `update_product` (src/main.py lines
891-902): 404 if the product is missing, otherwise apply every supplied field
and commit — with no validation of the new values. -/
def update_product (db : DB) (product_id : ℤ) (u : ProductUpdate) :
    Except ℕ (DB × Product) :=
  match db.products.find? (fun p => p.id == product_id) with
  | none => .error 404
  | some db_product =>
    let updated := applyProductUpdate u db_product
    .ok
      ({ db with
          products := mapFirst (fun p => p.id == product_id)
            (fun _ => updated) db.products },
        updated)

/-- The `users` table row (class `User` in src/main.py): ten independent boolean
permission columns plus `is_active`. -/
structure User where
  id : ℤ
  username : String
  email : String
  password_hash : String
  sales : Bool
  purchase : Bool
  create_product : Bool
  delete_product : Bool
  sales_ledger : Bool
  purchase_ledger : Bool
  stock_ledger : Bool
  profit_loss : Bool
  opening_stock : Bool
  user_management : Bool
  is_active : Bool
  created_at : ℤ
  deriving DecidableEq

/-- Outcome of `bcrypt.checkpw(password, stored)`: a boolean verdict, or the
`ValueError` / `TypeError` it raises when the stored string is not a valid
bcrypt hash (the handler catches exactly these two). -/
inductive BcryptResult where
  | ok (b : Bool)
  | exn
  deriving DecidableEq

/-- Function `authenticate_user` (src/main.py lines 1857-1895), parameterised by the
external `bcrypt.checkpw` oracle: look the user up by username (None if
missing); return None if the stored password is falsy (`if not
stored_password`, i.e. the empty string); try `bcrypt.checkpw` — on success
return the user, and on a False verdict or a caught exception fall through to
the legacy plain-text comparison `stored_password == password`. -/
def authenticate_user (checkpw : String → String → BcryptResult)
    (users : List User) (username password : String) : Option User :=
  match users.find? (fun u => u.username == username) with
  | none => none
  | some user =>
    let stored_password := user.password_hash
    if stored_password == "" then none
    else
      match checkpw password stored_password with
      | .ok true => some user
      | _ => if stored_password == password then some user else none

/-- Endpoint `POST /auth/login` (src/main.py lines 1897-1949), reduced to its
authentication outcome: 401 when `authenticate_user` returns None, otherwise
the authenticated user (token issuance and the permission listing are
external serialisation of this user). -/
def login (checkpw : String → String → BcryptResult) (users : List User)
    (username password : String) : Except ℕ User :=
  match authenticate_user checkpw users username password with
  | none => .error 401
  | some user => .ok user

/-- Endpoint `POST /auth/register` handler `register_user` (src/main.py lines
1770-1855), parameterised by the external `bcrypt.hashpw` result `hashed`:
400 for an empty username or password, 400 for a password shorter than 6
characters, 400 when a user with the same username or derived email
(`username + "@example.com"`) exists; otherwise insert a user with
`sales=True, purchase=True`, the other eight permission flags `False`, and
`is_active=True` — the request carries only username and password, so the
granted permissions never depend on it. -/
def register_user (users : List User) (username password : String)
    (hashed : String) (newId now : ℤ) : Except ℕ (List User × User) :=
  if username == "" || password == "" then .error 400
  else if password.length < 6 then .error 400
  else
    match users.find? (fun u => u.username == username
        || u.email == username ++ "@example.com") with
    | some _ => .error 400
    | none =>
      let email := username ++ "@example.com"
      let new_user : User :=
        { id := newId
          username := username
          email := email
          password_hash := hashed
          sales := true
          purchase := true
          create_product := false
          delete_product := false
          sales_ledger := false
          purchase_ledger := false
          stock_ledger := false
          profit_loss := false
          opening_stock := false
          user_management := false
          is_active := true
          created_at := now }
      .ok (users ++ [new_user], new_user)

/-- The stored state after a `POST /sales/` request: the committed state on
success; on an `HTTPException` the handler raises before mutating anything,
so the uncommitted session is discarded and the stored state is unchanged. -/
def record_sale_state (db : DB) (req : SaleCreate) (now newId : ℤ) : DB :=
  match record_sale db req now newId with
  | .ok (db2, _) => db2
  | .error _ => db

/-- The stored state after a `DELETE /purchases/{id}` request: committed on
success; on an `HTTPException` the handler calls `db.rollback()` and
re-raises, so the stored state is unchanged. -/
def delete_purchase_state (db : DB) (purchase_id : ℤ) : DB :=
  match delete_purchase db purchase_id with
  | .ok db2 => db2
  | .error _ => db

/-- Invariant `stock ≥ 0` for every product at rest. -/
def stockInv (db : DB) : Prop := ∀ p ∈ db.products, 0 ≤ p.stock

/-- The data-model invariant that every recorded sale and purchase has a
non-negative quantity (spec §3 requires `quantity > 0`; non-negativity is all
the stock argument needs). -/
def quantitiesNonneg (db : DB) : Prop :=
  (∀ s ∈ db.sales, 0 ≤ s.quantity) ∧ (∀ p ∈ db.purchases, 0 ≤ p.quantity)

/-- Elements of `mapFirst hit f l` when `find?` locates the first hit `a`:
either an untouched element of `l`, or the image `f a` of that first hit. -/
theorem mem_mapFirst_of_find? {α : Type} (hit : α → Bool) (f : α → α)
    (l : List α) (a q : α) (hfind : l.find? hit = some a)
    (hq : q ∈ mapFirst hit f l) : q ∈ l ∨ q = f a := by
  induction l with
  | nil => cases hq
  | cons x xs ih =>
    by_cases hx : hit x = true
    · rw [List.find?_cons_of_pos _ hx] at hfind
      cases hfind
      simp only [mapFirst, hx, if_true] at hq
      rcases List.mem_cons.1 hq with h | h
      · exact Or.inr h
      · exact Or.inl (List.mem_cons_of_mem _ h)
    · rw [List.find?_cons_of_neg _ hx] at hfind
      simp only [mapFirst, hx, if_false] at hq
      rcases List.mem_cons.1 hq with h | h
      · exact Or.inl (h ▸ List.mem_cons_self x xs)
      · rcases ih hfind h with h' | h'
        · exact Or.inl (List.mem_cons_of_mem _ h')
        · exact Or.inr h'

/-- Running `find?` after `mapFirst` returns the updated first hit, provided the
update keeps it a hit. -/
theorem find?_mapFirst_self {α : Type} (hit : α → Bool) (f : α → α)
    (l : List α) (a : α) (hfind : l.find? hit = some a)
    (hfa : hit (f a) = true) :
    (mapFirst hit f l).find? hit = some (f a) := by
  induction l with
  | nil => simp at hfind
  | cons x xs ih =>
    by_cases hx : hit x = true
    · rw [List.find?_cons_of_pos _ hx] at hfind
      cases hfind
      simp only [mapFirst, hx, if_true]
      exact List.find?_cons_of_pos _ hfa
    · rw [List.find?_cons_of_neg _ hx] at hfind
      have hx' : hit x = false := by simpa using hx
      rw [show mapFirst hit f (x :: xs) = x :: mapFirst hit f xs from by
        simp [mapFirst, hx']]
      rw [List.find?_cons_of_neg _ hx]
      exact ih hfind

/-- Membership in the product list an incoming `product_id` filter selects
implies membership in the full product table. -/
theorem mem_of_mem_selectedProducts (db : DB) (pid : Option ℤ) (p : Product)
    (hp : p ∈ selectedProducts db pid) : p ∈ db.products := by
  unfold selectedProducts at hp
  cases pid with
  | none => exact hp
  | some q =>
    by_cases hq : (q == 0) = true
    · simpa [hq] using hp
    · have h : p ∈ db.products ∧ p.id = q := by simpa [hq] using hp
      exact h.1

/-! Concrete states used by witnesses and counterexamples. -/

/-- The spec §8 example product after its sale of 10 and purchase of 5:
`stock = 45`, `purchase_price = 80`, `selling_price = 100`. -/
def riceProduct : Product :=
  { id := 1, name := "rice", purchase_price := 80, selling_price := 100
    unit_type := "kgs", stock := 45, initial_stock := 50, created_at := 0 }

/-- A state holding `riceProduct` with one recorded sale (quantity 10 at time
1) and one recorded purchase (quantity 5 at time 2). -/
def riceDB : DB :=
  { products := [riceProduct]
    sales := [{ id := 1, product_id := 1, quantity := 10, total_amount := 1000
                sale_date := 1 }]
    purchases := [{ id := 1, product_id := 1, quantity := 5, total_cost := 375
                    purchase_date := 2 }] }

/-- A product with positive stock and no recorded transactions, so its
derived opening stock (5) is nonzero. -/
def saltProduct : Product :=
  { id := 1, name := "salt", purchase_price := 10, selling_price := 12
    unit_type := "kgs", stock := 5, initial_stock := 5, created_at := 0 }

/-- State with `saltProduct` alone: no sales, no purchases. -/
def saltDB : DB := { products := [saltProduct], sales := [], purchases := [] }

/-- C1: for every product and every given cutoff `date_to`, the snapshot
endpoint's stock is `(current_stock + total_sales_ever − total_purchases_ever)
+ purchases_up_to_date − sales_up_to_date`, the "ever" sums carrying no date
filter (src/main.py lines 809-842). -/
theorem stock_snapshot_date_to_formula (db : DB) (dateFrom : Option ℤ)
    (cutoff : ℤ) (pid : Option ℤ) (now : ℤ) :
    (∀ e ∈ get_products_stock_snapshot db dateFrom (some cutoff) pid now,
       ∃ p, p ∈ db.products ∧ e.product_id = p.id ∧
         e.stock = (p.stock + totalSalesEver db p.id - totalPurchasesEver db p.id)
           + purchasesUpTo db p.id cutoff - salesUpTo db p.id cutoff) ∧
    (get_products_stock_snapshot db dateFrom (some cutoff) none now).map
        (fun e => (e.product_id, e.stock)) =
      db.products.map (fun p => (p.id,
        (p.stock + totalSalesEver db p.id - totalPurchasesEver db p.id)
          + purchasesUpTo db p.id cutoff - salesUpTo db p.id cutoff)) := by
  constructor
  · intro e he
    rcases List.mem_map.1 he with ⟨p, hp, rfl⟩
    exact ⟨p, mem_of_mem_selectedProducts db pid p hp, rfl, rfl⟩
  · unfold get_products_stock_snapshot
    rw [List.map_map]
    rfl

/-- Witness for C1: the rice example state at cutoff 3 (both transactions
inside the window): stock = (45 + 10 − 5) + 5 − 10 = 45. -/
theorem stock_snapshot_date_to_formula_witness :
    ∃ p, p ∈ riceDB.products ∧
      (snapshotFor riceDB none (some 3) 7 riceProduct).product_id = p.id ∧
      (snapshotFor riceDB none (some 3) 7 riceProduct).stock =
        (p.stock + totalSalesEver riceDB p.id - totalPurchasesEver riceDB p.id)
          + purchasesUpTo riceDB p.id 3 - salesUpTo riceDB p.id 3 :=
  (stock_snapshot_date_to_formula riceDB none 3 none 7).1 _ (List.Mem.head _)

/-- C2 counterexample: with only `date_from` given, the code computes
`purchases_up_to_date − sales_up_to_date` with no opening-stock term
(src/main.py line 859). For `saltDB` (stock 5, no transactions, hence opening
stock 5) a `date_from`-only query returns stock 0, while the same cutoff
passed as `date_to` — what the claim says `date_from`-only is an alias for —
returns 5. -/
theorem stock_snapshot_date_from_only_cex :
    (get_products_stock_snapshot saltDB (some 0) none none 0).map
        (fun e => e.stock) = [0] ∧
    (get_products_stock_snapshot saltDB none (some 0) none 0).map
        (fun e => e.stock) = [5] := by
  exact ⟨by decide, by decide⟩

/-- C2 amended: with only `date_from` given (no `date_to`), the snapshot
endpoint returns `purchases_up_to_date_from − sales_up_to_date_from`, with no
opening-stock term — so it agrees with the as-of-`date_from` query only when
the product's derived opening stock is zero. -/
theorem stock_snapshot_date_from_only (db : DB) (cutoff : ℤ)
    (pid : Option ℤ) (now : ℤ) :
    (∀ e ∈ get_products_stock_snapshot db (some cutoff) none pid now,
       ∃ p, p ∈ db.products ∧ e.product_id = p.id ∧
         e.stock = purchasesUpTo db p.id cutoff - salesUpTo db p.id cutoff) ∧
    (get_products_stock_snapshot db (some cutoff) none none now).map
        (fun e => (e.product_id, e.stock)) =
      db.products.map (fun p => (p.id,
        purchasesUpTo db p.id cutoff - salesUpTo db p.id cutoff)) := by
  constructor
  · intro e he
    rcases List.mem_map.1 he with ⟨p, hp, rfl⟩
    exact ⟨p, mem_of_mem_selectedProducts db pid p hp, rfl, rfl⟩
  · unfold get_products_stock_snapshot
    rw [List.map_map]
    rfl

/-- Witness for the amended C2: the rice state with `date_from = 1` selects
the sale (time 1) but not the purchase (time 2): stock = 0 − 10 = −10. -/
theorem stock_snapshot_date_from_only_witness :
    ∃ p, p ∈ riceDB.products ∧
      (snapshotFor riceDB (some 1) none 7 riceProduct).product_id = p.id ∧
      (snapshotFor riceDB (some 1) none 7 riceProduct).stock =
        purchasesUpTo riceDB p.id 1 - salesUpTo riceDB p.id 1 :=
  (stock_snapshot_date_from_only riceDB 1 none 7).1 _ (List.Mem.head _)

/-- C3 counterexample: `ProductUpdate.stock` carries no `ge=0` constraint and
`update_product` applies it without validation, so `PUT /products/1` with
`stock = -3` commits a product whose stock is negative, starting from a state
where every stock is non-negative. -/
theorem update_product_negative_stock_cex :
    saltDB.products.all (fun p => decide (0 ≤ p.stock)) = true ∧
    ((update_product saltDB 1
        { name := none, purchase_price := none, selling_price := none
          unit_type := none, stock := some (-3) }).toOption.map
      (fun out => out.1.products.map (fun p => p.stock))) = some [-3] := by
  decide

instance (req : SaleCreate) : Decidable req.valid := by
  unfold SaleCreate.valid; infer_instance

instance (req : PurchaseCreate) : Decidable req.valid := by
  unfold PurchaseCreate.valid; infer_instance

/-- C3 amended: in a state whose recorded transaction quantities are
non-negative, `stock ≥ 0` for every product is preserved by recording a sale
or purchase and by deleting a sale or purchase — but not by `update_product`,
which can commit any stock value the request supplies. -/
theorem stock_nonneg_preserved (db : DB) (hWf : quantitiesNonneg db)
    (hInv : stockInv db) :
    (∀ (req : SaleCreate) (now newId : ℤ) (out : DB × Sale),
        record_sale db req now newId = .ok out → stockInv out.1) ∧
    (∀ (req : PurchaseCreate) (now newId : ℤ) (out : DB × Purchase),
        req.valid → record_purchase db req now newId = .ok out → stockInv out.1) ∧
    (∀ (sid : ℤ) (db2 : DB), delete_sale db sid = .ok db2 → stockInv db2) ∧
    (∀ (pid : ℤ) (db2 : DB), delete_purchase db pid = .ok db2 → stockInv db2) := by
  refine ⟨?_, ?_, ?_, ?_⟩
  · intro req now newId out h
    unfold record_sale at h
    split at h
    · cases h
    · rename_i product hfind
      split at h
      · cases h
      · rename_i hs
        cases h
        intro q hq
        rcases mem_mapFirst_of_find? _ _ _ _ _ hfind hq with hmem | rfl
        · exact hInv q hmem
        · have h0 := hInv product (List.mem_of_find?_eq_some hfind)
          show 0 ≤ product.stock - req.quantity
          omega
  · intro req now newId out hvalid h
    unfold record_purchase at h
    split at h
    · cases h
    · rename_i product hfind
      cases h
      intro q hq
      rcases mem_mapFirst_of_find? _ _ _ _ _ hfind hq with hmem | rfl
      · exact hInv q hmem
      · have h0 := hInv product (List.mem_of_find?_eq_some hfind)
        have h1 := hvalid.1
        show 0 ≤ product.stock + req.quantity
        omega
  · intro sid db2 h
    unfold delete_sale at h
    split at h
    · cases h
    · rename_i db_sale hsale
      split at h
      · cases h
      · rename_i product hprod
        cases h
        intro q hq
        rcases mem_mapFirst_of_find? _ _ _ _ _ hprod hq with hmem | rfl
        · exact hInv q hmem
        · have h0 := hInv product (List.mem_of_find?_eq_some hprod)
          have h1 := hWf.1 db_sale (List.mem_of_find?_eq_some hsale)
          show 0 ≤ product.stock + db_sale.quantity
          omega
  · intro pid db2 h
    unfold delete_purchase at h
    split at h
    · cases h
    · rename_i db_purchase hpur
      split at h
      · cases h
      · rename_i product hprod
        split at h
        · cases h
        · rename_i hs
          cases h
          intro q hq
          rcases mem_mapFirst_of_find? _ _ _ _ _ hprod hq with hmem | rfl
          · exact hInv q hmem
          · show 0 ≤ product.stock - db_purchase.quantity
            omega

/-- Witness for the amended C3: selling the whole rice stock (45 units)
commits a state that still satisfies `stock ≥ 0`. -/
theorem stock_nonneg_preserved_witness :
    ∃ out, record_sale riceDB ⟨1, 45⟩ 9 2 = .ok out ∧ stockInv out.1 :=
  ⟨_, rfl, (stock_nonneg_preserved riceDB
    (by constructor <;> decide) (by intro p hp; fin_cases hp; decide)).1
      ⟨1, 45⟩ 9 2 _ rfl⟩

/-- The spec §8 example product as created: `stock = 50`,
`purchase_price = 80`, `selling_price = 100`. -/
def attaProduct : Product :=
  { id := 1, name := "atta", purchase_price := 80, selling_price := 100
    unit_type := "kgs", stock := 50, initial_stock := 50, created_at := 0 }

/-- State with `attaProduct` alone, before any transaction. -/
def attaDB : DB := { products := [attaProduct], sales := [], purchases := [] }

/-- The spec §8 example request: sell 10 units of product 1. -/
def attaSale : SaleCreate := { product_id := 1, quantity := 10 }

/-- C4: a valid sale request whose quantity is at most the product's stock
succeeds, persists a `Sale` row with `total_amount = selling_price *
quantity`, and decrements the product's stock by exactly the quantity. -/
theorem record_sale_success (db : DB) (req : SaleCreate) (now newId : ℤ)
    (product : Product) (_hvalid : req.valid)
    (hfind : db.products.find? (fun p => p.id == req.product_id) = some product)
    (hstock : req.quantity ≤ product.stock) :
    ∃ db2 sale, record_sale db req now newId = .ok (db2, sale) ∧
      sale.total_amount = product.selling_price * (req.quantity : ℚ) ∧
      sale.quantity = req.quantity ∧
      db2.sales = db.sales ++ [sale] ∧
      (db2.products.find? (fun p => p.id == req.product_id)).map
        (fun p => p.stock) = some (product.stock - req.quantity) := by
  have hs : ¬ product.stock < req.quantity := by omega
  let sale : Sale :=
    { id := newId, product_id := req.product_id, quantity := req.quantity
      total_amount := product.selling_price * (req.quantity : ℚ)
      sale_date := now }
  let db2 : DB :=
    { db with
      products := mapFirst (fun p => p.id == req.product_id)
        (fun p => { p with stock := p.stock - req.quantity }) db.products
      sales := db.sales ++ [sale] }
  refine ⟨db2, sale, ?_, rfl, rfl, rfl, ?_⟩
  · simp only [record_sale, hfind, if_neg hs]
  · have hhit : (fun p => p.id == req.product_id)
        ({ product with stock := product.stock - req.quantity } : Product)
          = true := by
      have hp := List.find?_some hfind
      simpa using hp
    rw [find?_mapFirst_self (fun p => p.id == req.product_id)
      (fun p => { p with stock := p.stock - req.quantity }) db.products product
      hfind hhit]
    rfl

/-- Witness for C4: the spec §8 example — stock 50, selling price 100, sale
of 10 gives `total_amount = 1000` and stock 40. -/
theorem record_sale_success_witness :
    ∃ db2 sale, record_sale attaDB attaSale 3 1 = .ok (db2, sale) ∧
      sale.total_amount = attaProduct.selling_price * ((attaSale.quantity : ℤ) : ℚ) ∧
      sale.quantity = attaSale.quantity ∧
      db2.sales = attaDB.sales ++ [sale] ∧
      (db2.products.find? (fun p => p.id == attaSale.product_id)).map
        (fun p => p.stock) = some (attaProduct.stock - attaSale.quantity) :=
  record_sale_success attaDB attaSale 3 1 attaProduct (by decide) rfl (by decide)

/-- C5: a valid sale request fails with 404 when the product does not exist
and with 400 when the quantity exceeds the product's stock, and in both
failure cases the committed state is unchanged (the handler raises before
mutating anything). -/
theorem record_sale_failure (db : DB) (req : SaleCreate) (now newId : ℤ)
    (_hvalid : req.valid) :
    (db.products.find? (fun p => p.id == req.product_id) = none →
       record_sale db req now newId = .error 404 ∧
       record_sale_state db req now newId = db) ∧
    (∀ product,
       db.products.find? (fun p => p.id == req.product_id) = some product →
       product.stock < req.quantity →
       record_sale db req now newId = .error 400 ∧
       record_sale_state db req now newId = db) := by
  constructor
  · intro hnone
    have h : record_sale db req now newId = .error 404 := by
      simp only [record_sale, hnone]
    exact ⟨h, by simp only [record_sale_state, h]⟩
  · intro product hfind hlt
    have h : record_sale db req now newId = .error 400 := by
      simp only [record_sale, hfind, if_pos hlt]
    exact ⟨h, by simp only [record_sale_state, h]⟩

/-- Witness for C5: against `attaDB`, selling product 2 (absent) yields 404
and selling 60 units of product 1 (stock 50) yields 400; both leave the
state as it was. -/
theorem record_sale_failure_witness :
    (record_sale attaDB ⟨2, 10⟩ 3 1 = .error 404 ∧
     record_sale_state attaDB ⟨2, 10⟩ 3 1 = attaDB) ∧
    (record_sale attaDB ⟨1, 60⟩ 3 1 = .error 400 ∧
     record_sale_state attaDB ⟨1, 60⟩ 3 1 = attaDB) :=
  ⟨(record_sale_failure attaDB ⟨2, 10⟩ 3 1 (by decide)).1 rfl,
   (record_sale_failure attaDB ⟨1, 60⟩ 3 1 (by decide)).2 attaProduct rfl
     (by decide)⟩

/-- C6: deleting a sale restores exactly the sale's recorded quantity;
deleting a purchase is rejected with 400 and leaves the state untouched when
the product's stock is below the purchase quantity, and otherwise removes
exactly the purchase quantity from the stock. -/
theorem delete_reverses_stock (db : DB) :
    (∀ (sid : ℤ) (s : Sale) (product : Product),
       db.sales.find? (fun t => t.id == sid) = some s →
       db.products.find? (fun p => p.id == s.product_id) = some product →
       ∃ db2, delete_sale db sid = .ok db2 ∧
         (db2.products.find? (fun p => p.id == s.product_id)).map
           (fun p => p.stock) = some (product.stock + s.quantity)) ∧
    (∀ (purId : ℤ) (pu : Purchase) (product : Product),
       db.purchases.find? (fun t => t.id == purId) = some pu →
       db.products.find? (fun p => p.id == pu.product_id) = some product →
       (product.stock < pu.quantity →
          delete_purchase db purId = .error 400 ∧
          delete_purchase_state db purId = db) ∧
       (pu.quantity ≤ product.stock →
          ∃ db2, delete_purchase db purId = .ok db2 ∧
            (db2.products.find? (fun p => p.id == pu.product_id)).map
              (fun p => p.stock) = some (product.stock - pu.quantity))) := by
  constructor
  · intro sid s product hsale hprod
    refine ⟨{ db with
        products := mapFirst (fun p => p.id == s.product_id)
          (fun p => { p with stock := p.stock + s.quantity }) db.products
        sales := db.sales.eraseP (fun t => t.id == sid) }, ?_, ?_⟩
    · simp only [delete_sale, hsale, hprod]
    · have hhit : (fun p => p.id == s.product_id)
          ({ product with stock := product.stock + s.quantity } : Product)
            = true := by
        have hp := List.find?_some hprod
        simpa using hp
      rw [find?_mapFirst_self (fun p => p.id == s.product_id)
        (fun p => { p with stock := p.stock + s.quantity }) db.products product
        hprod hhit]
      rfl
  · intro purId pu product hpur hprod
    constructor
    · intro hlt
      have h : delete_purchase db purId = .error 400 := by
        simp only [delete_purchase, hpur, hprod, if_pos hlt]
      exact ⟨h, by simp only [delete_purchase_state, h]⟩
    · intro hge
      have hs : ¬ product.stock < pu.quantity := by omega
      refine ⟨{ db with
          products := mapFirst (fun p => p.id == pu.product_id)
            (fun p => { p with stock := p.stock - pu.quantity }) db.products
          purchases := db.purchases.eraseP (fun t => t.id == purId) }, ?_, ?_⟩
      · simp only [delete_purchase, hpur, hprod, if_neg hs]
      · have hhit : (fun p => p.id == pu.product_id)
            ({ product with stock := product.stock - pu.quantity } : Product)
              = true := by
          have hp := List.find?_some hprod
          simpa using hp
        rw [find?_mapFirst_self (fun p => p.id == pu.product_id)
          (fun p => { p with stock := p.stock - pu.quantity }) db.products
          product hprod hhit]
        rfl

/-- A product with stock 3, one recorded sale (id 7, quantity 4) and two
recorded purchases (id 8 quantity 5, id 9 quantity 2), used to exercise both
delete outcomes. -/
def wheatProduct : Product :=
  { id := 1, name := "wheat", purchase_price := 30, selling_price := 35
    unit_type := "kgs", stock := 3, initial_stock := 0, created_at := 0 }

/-- State holding `wheatProduct` and its transaction history. -/
def wheatDB : DB :=
  { products := [wheatProduct]
    sales := [{ id := 7, product_id := 1, quantity := 4, total_amount := 140
                sale_date := 1 }]
    purchases := [{ id := 8, product_id := 1, quantity := 5, total_cost := 150
                    purchase_date := 1 },
                  { id := 9, product_id := 1, quantity := 2, total_cost := 60
                    purchase_date := 2 }] }

/-- Witness for C6: on `wheatDB` (stock 3), deleting sale 7 (quantity 4)
restores stock to 7; deleting purchase 8 (quantity 5 > 3) is rejected with
400 and changes nothing; deleting purchase 9 (quantity 2 ≤ 3) commits
stock 1. -/
theorem delete_reverses_stock_witness :
    (∃ db2, delete_sale wheatDB 7 = .ok db2 ∧
       (db2.products.find? (fun p => p.id == (1 : ℤ))).map
         (fun p => p.stock) = some (3 + 4)) ∧
    (delete_purchase wheatDB 8 = .error 400 ∧
       delete_purchase_state wheatDB 8 = wheatDB) ∧
    (∃ db2, delete_purchase wheatDB 9 = .ok db2 ∧
       (db2.products.find? (fun p => p.id == (1 : ℤ))).map
         (fun p => p.stock) = some (3 - 2)) :=
  ⟨(delete_reverses_stock wheatDB).1 7 _ wheatProduct rfl rfl,
   ((delete_reverses_stock wheatDB).2 8 _ wheatProduct rfl rfl).1 (by decide),
   ((delete_reverses_stock wheatDB).2 9 _ wheatProduct rfl rfl).2 (by decide)⟩

/-- A state whose recorded history is inconsistent with the live stock:
stock 0, no sales, one purchase of 5 dated after the cutoff 10, so the
derived opening stock — and the reconstructed stock as of 10 — is −5. -/
def inconsistentDB : DB :=
  { products := [{ id := 1, name := "ghee", purchase_price := 500
                   selling_price := 550, unit_type := "ltr", stock := 0
                   initial_stock := 0, created_at := 0 }]
    sales := []
    purchases := [{ id := 1, product_id := 1, quantity := 5
                    total_cost := 2500, purchase_date := 20 }] }

/-- C7: the opening-stock-register path clamps every entry's stock quantity
to `max(0, ·)` (hence ≥ 0), while the stock-snapshot date-range branch does
not clamp: on `inconsistentDB` it returns stock −5. -/
theorem opening_register_clamps_snapshot_does_not :
    (∀ (db : DB) (e : OpeningStockResponse),
       e ∈ get_opening_stock_register db →
       0 ≤ e.initial_stock ∧
       ∃ p, p ∈ db.products ∧ e.id = p.id ∧
         e.initial_stock = max 0 p.initial_stock) ∧
    (get_products_stock_snapshot inconsistentDB none (some 10) none 0).map
      (fun e => e.stock) = [-5] := by
  constructor
  · intro db e he
    rcases List.mem_map.1 he with ⟨p, hp, rfl⟩
    exact ⟨le_max_left 0 p.initial_stock, p, hp, rfl, rfl⟩
  · decide

/-- A legacy product row carrying a negative `initial_stock` value. -/
def negInitProduct : Product :=
  { id := 2, name := "old stock", purchase_price := 10, selling_price := 12
    unit_type := "pcs", stock := 0, initial_stock := -2, created_at := 0 }

/-- State holding only `negInitProduct`. -/
def negInitDB : DB := { products := [negInitProduct], sales := [], purchases := [] }

/-- The register entry `get_opening_stock_register` produces for
`negInitProduct`: its stock quantity is clamped to `max 0 (−2) = 0`. -/
def negInitEntry : OpeningStockResponse :=
  { id := negInitProduct.id
    name := negInitProduct.name
    purchase_price := negInitProduct.purchase_price
    selling_price := negInitProduct.selling_price
    unit_type := negInitProduct.unit_type
    initial_stock := max 0 negInitProduct.initial_stock
    stock_value := ((max 0 negInitProduct.initial_stock : ℤ) : ℚ)
      * negInitProduct.purchase_price
    created_at := negInitProduct.created_at }

/-- Witness for C7: the register entry for a product with `initial_stock =
−2` reports the clamped quantity 0. -/
theorem opening_register_clamps_witness :
    0 ≤ negInitEntry.initial_stock ∧
    ∃ p, p ∈ negInitDB.products ∧ negInitEntry.id = p.id ∧
      negInitEntry.initial_stock = max 0 p.initial_stock :=
  opening_register_clamps_snapshot_does_not.1 negInitDB negInitEntry
    (List.Mem.head _)

/-- The per-entry data of a stock snapshot, excluding the `last_updated`
timestamp field. -/
def snapshotData (e : ProductStockSnapshot) : ℤ × String × ℚ × ℤ × ℚ × String :=
  (e.product_id, e.product_name, e.price, e.stock, e.stock_value, e.unit_type)

/-- C8 counterexample: two calls with identical filters and no intervening
write, made at wall-clock instants 0 and 1, return different results — each
entry's `last_updated` field is stamped with `datetime.now(IST)` at response
time. -/
theorem stock_snapshot_time_field_cex :
    get_products_stock_snapshot saltDB none none none 0
      ≠ get_products_stock_snapshot saltDB none none none 1 := by
  intro h
  have h2 := congrArg (List.map (fun e => e.last_updated)) h
  simp [get_products_stock_snapshot, selectedProducts, saltDB,
    snapshotFor] at h2

/-- C8 amended: two calls with identical `date_from`, `date_to` and
`product_id` filters and no intervening write agree on every field of every
entry except `last_updated`, which carries the wall-clock time of each
call. -/
theorem stock_snapshot_repeatable (db : DB) (dateFrom dateTo pid : Option ℤ)
    (now1 now2 : ℤ) :
    (get_products_stock_snapshot db dateFrom dateTo pid now1).map snapshotData
      = (get_products_stock_snapshot db dateFrom dateTo pid now2).map
          snapshotData := by
  unfold get_products_stock_snapshot
  rw [List.map_map, List.map_map]
  rfl

/-- A legacy user whose stored password is the plain text "pw123456"
(created before hashing was introduced). -/
def legacyUser : User :=
  { id := 1, username := "bob", email := "bob@example.com"
    password_hash := "pw123456", sales := true, purchase := true
    create_product := false, delete_product := false, sales_ledger := false
    purchase_ledger := false, stock_ledger := false, profit_loss := false
    opening_stock := false, user_management := false, is_active := true
    created_at := 0 }

/-- A user row whose stored password string is empty. -/
def emptyPwUser : User :=
  { id := 2, username := "legacy", email := "legacy@example.com"
    password_hash := "", sales := true, purchase := true
    create_product := false, delete_product := false, sales_ledger := false
    purchase_ledger := false, stock_ledger := false, profit_loss := false
    opening_stock := false, user_management := false, is_active := true
    created_at := 0 }

/-- The behaviour of `bcrypt.checkpw` when the stored string is not a valid
bcrypt hash (as for a plain-text or empty legacy password): it raises
`ValueError`, modelled as `.exn`. -/
def rejectAllBcrypt : String → String → BcryptResult := fun _ _ => .exn

/-- C9 counterexample: for a user whose stored password string is empty, a
submitted empty password is exactly equal to the stored string (the claim's
legacy-fallback condition holds, and bcrypt raises on the invalid empty
hash), yet the `if not stored_password` guard in `authenticate_user` rejects
before the equality check, so login fails with 401. -/
theorem login_empty_password_cex :
    emptyPwUser.password_hash = "" ∧
    authenticate_user rejectAllBcrypt [emptyPwUser] "legacy" "" = none ∧
    login rejectAllBcrypt [emptyPwUser] "legacy" "" = .error 401 :=
  ⟨rfl, rfl, rfl⟩

/-- C9 amended: authentication succeeds iff the stored `password_hash` is
non-empty and either bcrypt verification of the submitted password against
it succeeds or it is exactly equal to the submitted plain-text password; in
every other case (including a missing user) login fails with HTTP 401. -/
theorem login_auth_characterization
    (checkpw : String → String → BcryptResult) (users : List User)
    (username password : String) :
    (users.find? (fun u => u.username == username) = none →
       login checkpw users username password = .error 401) ∧
    (∀ user, users.find? (fun u => u.username == username) = some user →
       (login checkpw users username password = .ok user ∨
        login checkpw users username password = .error 401) ∧
       (login checkpw users username password = .ok user ↔
         (user.password_hash ≠ "" ∧
           (checkpw password user.password_hash = .ok true ∨
            user.password_hash = password)))) := by
  constructor
  · intro hnone
    simp only [login, authenticate_user, hnone]
  · intro user hfind
    have key : authenticate_user checkpw users username password =
        if user.password_hash ≠ "" ∧
            (checkpw password user.password_hash = .ok true ∨
             user.password_hash = password)
          then some user else none := by
      unfold authenticate_user
      rw [hfind]
      by_cases hempty : user.password_hash = ""
      · simp [hempty]
      · cases hcheck : checkpw password user.password_hash with
        | ok b =>
          cases b with
          | true => simp [hempty, hcheck]
          | false =>
            by_cases heq : user.password_hash = password
            · simp only [hcheck]
              simp [hempty, heq]
            · simp only [hcheck]
              simp [hempty, heq]
        | exn =>
          by_cases heq : user.password_hash = password
          · simp only [hcheck]
            simp [hempty, heq]
          · simp only [hcheck]
            simp [hempty, heq]
    unfold login
    rw [key]
    by_cases hcond : user.password_hash ≠ "" ∧
        (checkpw password user.password_hash = .ok true ∨
         user.password_hash = password)
    · simp [hcond]
    · simp [hcond]

/-- Witness for the amended C9: a legacy user with a non-empty plain-text
stored password logs in via the equality fallback even though bcrypt raises
on the non-hash stored string. -/
theorem login_auth_characterization_witness :
    login rejectAllBcrypt [legacyUser] "bob" "pw123456" = .ok legacyUser :=
  ((login_auth_characterization rejectAllBcrypt [legacyUser] "bob"
      "pw123456").2 legacyUser rfl).2.mpr ⟨by decide, Or.inr rfl⟩

/-- C10: every user the public registration endpoint commits is active, with
exactly `sales` and `purchase` granted and the other eight permission flags
denied, whatever the request contained (the request is only a username and a
password). -/
theorem register_user_default_permissions (users : List User)
    (username password hashed : String) (newId now : ℤ)
    (out : List User × User)
    (hok : register_user users username password hashed newId now = .ok out) :
    out.2.is_active = true ∧ out.2.sales = true ∧ out.2.purchase = true ∧
    out.2.create_product = false ∧ out.2.delete_product = false ∧
    out.2.sales_ledger = false ∧ out.2.purchase_ledger = false ∧
    out.2.stock_ledger = false ∧ out.2.profit_loss = false ∧
    out.2.opening_stock = false ∧ out.2.user_management = false ∧
    out.1 = users ++ [out.2] := by
  unfold register_user at hok
  split at hok
  · cases hok
  · split at hok
    · cases hok
    · split at hok
      · cases hok
      · cases hok
        exact ⟨rfl, rfl, rfl, rfl, rfl, rfl, rfl, rfl, rfl, rfl, rfl, rfl⟩

/-- The user record the registration endpoint creates for username "alice"
with bcrypt output "hash". -/
def aliceUser : User :=
  { id := 1, username := "alice", email := "alice@example.com"
    password_hash := "hash", sales := true, purchase := true
    create_product := false, delete_product := false, sales_ledger := false
    purchase_ledger := false, stock_ledger := false, profit_loss := false
    opening_stock := false, user_management := false, is_active := true
    created_at := 0 }

/-- Witness for C10: registering "alice" with password "password1" into an
empty user table yields exactly the sales+purchase permission set. -/
theorem register_user_default_permissions_witness :
    aliceUser.is_active = true ∧ aliceUser.sales = true ∧
    aliceUser.purchase = true ∧ aliceUser.create_product = false ∧
    aliceUser.delete_product = false ∧ aliceUser.sales_ledger = false ∧
    aliceUser.purchase_ledger = false ∧ aliceUser.stock_ledger = false ∧
    aliceUser.profit_loss = false ∧ aliceUser.opening_stock = false ∧
    aliceUser.user_management = false ∧
    ([aliceUser] : List User) = [] ++ [aliceUser] :=
  register_user_default_permissions [] "alice" "password1" "hash" 1 0
    ([aliceUser], aliceUser) rfl

end KiranaStore
